import Mathlib

/-!
Verification development for the mhn.quest scraper repository.

The repository contains two variant implementations of the same design:
`src/claude/scrape_mhn_quest.py` (async playwright) and
`src/gemini/scrape_mhn_quest_gemini.py` (sync playwright + BeautifulSoup;
`src/scrape_mhn_quest.py` is a near-identical copy of the gemini variant).
This file gives a shallow embedding of the pure decision logic of both
variants: the field extractors, the per-category parsers, the sparse
record serialization, the per-section outcome recording, and the exit
code computation.  Browser interaction is abstracted as query oracles
(`Dom`, `PageM`, `GSoup`): a query either returns its matches or raises,
exactly the surface the Python code consumes.
-/

namespace MHN

/-! ## Python string stripping

`str.strip()` removes leading and trailing whitespace.  We model strings
by Lean `String` and stripping by dropping whitespace characters from
both ends of the underlying character list. -/

def stripChars (l : List Char) : List Char :=
  ((l.dropWhile Char.isWhitespace).reverse.dropWhile Char.isWhitespace).reverse

/-- Model of Python `str.strip()`. -/
def pyStrip (s : String) : String := String.mk (stripChars s.data)

/-- The first character of the list, if any, is not whitespace. -/
def notWsHead : List Char → Bool
  | [] => true
  | c :: _ => !c.isWhitespace

/-- `s` has no leading and no trailing whitespace. -/
def trimmedB (s : String) : Bool := notWsHead s.data && notWsHead s.data.reverse

/-- Helper for `splitComma`: `cur` holds the reversed characters of the
piece being read. -/
def splitCommaAux : List Char → List Char → List String
  | [], cur => [String.mk cur.reverse]
  | c :: rest, cur =>
    if c = ',' then String.mk cur.reverse :: splitCommaAux rest []
    else splitCommaAux rest (c :: cur)

/-- Model of Python `selector.split(",")`: splits at every comma and
keeps empty pieces (`"".split(",") == [""]`). -/
def splitComma (s : String) : List String := splitCommaAux s.data []

/-! ## The browser query surface

A `Dom` is the behaviour, as seen by the field extractors, of one scope
element handle: each query either raises (modeled as `Except.error ()`,
the Python `Exception`), or returns its matches; reading an element's
text either raises or returns `Optional[str]`.  Elements are opaque
handles (`Nat`). -/

structure Dom where
  query : String → Except Unit (Option Nat)
  queryAll : String → Except Unit (List Nat)
  textContent : Nat → Except Unit (Option String)

namespace Claude

/-- The candidate loop of `MHNQuestScraper._extract_text`.  The Python
`try` wraps the whole loop, so a raised exception anywhere returns `""`
immediately; a found sub-element returns its stripped text (or `""` for
a falsy text) immediately; a candidate with no match falls through to
the next candidate. -/
def extract_text_go (d : Dom) : List String → String
  | [] => ""
  | sel :: rest =>
    match d.query (pyStrip sel) with
    | .error _ => ""
    | .ok none => extract_text_go d rest
    | .ok (some e) =>
      match d.textContent e with
      | .error _ => ""
      | .ok none => ""
      | .ok (some t) => if t = "" then "" else pyStrip t

/-- `MHNQuestScraper._extract_text(element, selector)`: split the
comma-separated candidate list and run the candidate loop. -/
def extract_text (d : Dom) (selector : String) : String :=
  extract_text_go d (splitComma selector)

/-- The inner loop of `MHNQuestScraper._extract_list` over the elements
matched by one candidate: append stripped texts that are truthy both
before and after stripping.  A raised exception carries out the items
accumulated so far (the Python `items` list survives the `except`). -/
def extract_list_texts (d : Dom) (acc : List String) : List Nat → Except (List String) (List String)
  | [] => .ok acc
  | e :: rest =>
    match d.textContent e with
    | .error _ => .error acc
    | .ok none => extract_list_texts d acc rest
    | .ok (some t) =>
      if t = "" then extract_list_texts d acc rest
      else if pyStrip t = "" then extract_list_texts d acc rest
      else extract_list_texts d (acc ++ [pyStrip t]) rest

/-- The candidate loop of `MHNQuestScraper._extract_list`.  After one
candidate's elements are collected, `if items: break` stops at the first
candidate leaving a non-empty accumulator; an exception (from the query
or from a text read) returns the accumulated items immediately. -/
def extract_list_go (d : Dom) (acc : List String) : List String → List String
  | [] => acc
  | sel :: rest =>
    match d.queryAll (pyStrip sel) with
    | .error _ => acc
    | .ok es =>
      match extract_list_texts d acc es with
      | .error l => l
      | .ok acc2 => if acc2 = [] then extract_list_go d acc2 rest else acc2

/-- `MHNQuestScraper._extract_list(element, selector)`. -/
def extract_list (d : Dom) (selector : String) : List String :=
  extract_list_go d [] (splitComma selector)

end Claude

/-! ## Records

A record dictionary is an association list from field name to value; a
value is either a string or a list of strings (the only two shapes the
dataclasses carry; `__post_init__` replaces the `None` list defaults by
`[]`, so `None` never reaches `to_dict`). -/

inductive FieldVal where
  | str : String → FieldVal
  | vals : List String → FieldVal
deriving DecidableEq, Repr

/-- The emptiness test of `GameDataEntry.to_dict`:
`v is not None and v != "" and v != []` fails exactly on the empty
string (for string fields) and the empty list (for list fields). -/
def isEmptyVal : FieldVal → Bool
  | .str s => s == ""
  | .vals l => l.isEmpty

abbrev RecordDict := List (String × FieldVal)

namespace Claude

/-- `GameDataEntry.to_dict`: `asdict(self)` lists the dataclass fields
in declaration order; the comprehension keeps the non-empty ones. -/
def to_dict (fields : RecordDict) : RecordDict :=
  fields.filter (fun kv => !(isEmptyVal kv.2))

/-! Per-category field selector sets, mirroring the keys each parser
reads from `config.selectors[section]`. -/

structure MonsterSels where
  name_en : String
  name_jp : String
  weakness : String
  materials : String

structure WeaponSels where
  name_en : String
  name_jp : String
  weapon_class : String
  rarity : String

structure ArmorSels where
  name_en : String
  name_jp : String
  slot : String
  skills : String

structure SkillSels where
  name_en : String
  name_jp : String
  description : String

structure ItemSels where
  name_en : String
  name_jp : String
  category : String
  description : String

/-- The item loop of `MHNQuestScraper._parse_monsters`: skip an item
whose extracted `name_en` is falsy, otherwise build
`Monster(en=.., jp=.., weakness=.., materials=..)` (fields in dataclass
order `type, en, jp, weakness, materials, habitat, notes`, the last two
keeping their `""` defaults) and append `monster.to_dict()`.  Inside the
per-item `try`, the extractors never raise (they catch internally), so
the per-item `except` is not a separate branch of the model. -/
def parse_monsters_loop (sels : MonsterSels) : List Dom → List RecordDict
  | [] => []
  | d :: rest =>
    if extract_text d sels.name_en = "" then parse_monsters_loop sels rest
    else
      to_dict [("type", .str "monster"), ("en", .str (extract_text d sels.name_en)),
               ("jp", .str (extract_text d sels.name_jp)),
               ("weakness", .vals (extract_list d sels.weakness)),
               ("materials", .vals (extract_list d sels.materials)),
               ("habitat", .str ""), ("notes", .str "")]
        :: parse_monsters_loop sels rest

/-- The item loop of `MHNQuestScraper._parse_weapons` (dataclass order
`type, en, jp, weapon_class, rarity, notes`). -/
def parse_weapons_loop (sels : WeaponSels) : List Dom → List RecordDict
  | [] => []
  | d :: rest =>
    if extract_text d sels.name_en = "" then parse_weapons_loop sels rest
    else
      to_dict [("type", .str "weapon"), ("en", .str (extract_text d sels.name_en)),
               ("jp", .str (extract_text d sels.name_jp)),
               ("weapon_class", .str (extract_text d sels.weapon_class)),
               ("rarity", .str (extract_text d sels.rarity)),
               ("notes", .str "")]
        :: parse_weapons_loop sels rest

/-- The item loop of `MHNQuestScraper._parse_armor` (dataclass order
`type, en, jp, slot, skills, notes`). -/
def parse_armor_loop (sels : ArmorSels) : List Dom → List RecordDict
  | [] => []
  | d :: rest =>
    if extract_text d sels.name_en = "" then parse_armor_loop sels rest
    else
      to_dict [("type", .str "armor"), ("en", .str (extract_text d sels.name_en)),
               ("jp", .str (extract_text d sels.name_jp)),
               ("slot", .str (extract_text d sels.slot)),
               ("skills", .vals (extract_list d sels.skills)),
               ("notes", .str "")]
        :: parse_armor_loop sels rest

/-- The item loop of `MHNQuestScraper._parse_skills`.  `Skill` is built
with `en, jp, description` only, so `category` keeps its `""` default
(dataclass order `type, en, jp, category, description, notes`). -/
def parse_skills_loop (sels : SkillSels) : List Dom → List RecordDict
  | [] => []
  | d :: rest =>
    if extract_text d sels.name_en = "" then parse_skills_loop sels rest
    else
      to_dict [("type", .str "skill"), ("en", .str (extract_text d sels.name_en)),
               ("jp", .str (extract_text d sels.name_jp)),
               ("category", .str ""),
               ("description", .str (extract_text d sels.description)),
               ("notes", .str "")]
        :: parse_skills_loop sels rest

/-- The item loop of `MHNQuestScraper._parse_items` (dataclass order
`type, en, jp, category, description, notes`). -/
def parse_items_loop (sels : ItemSels) : List Dom → List RecordDict
  | [] => []
  | d :: rest =>
    if extract_text d sels.name_en = "" then parse_items_loop sels rest
    else
      to_dict [("type", .str "item"), ("en", .str (extract_text d sels.name_en)),
               ("jp", .str (extract_text d sels.name_jp)),
               ("category", .str (extract_text d sels.category)),
               ("description", .str (extract_text d sels.description)),
               ("notes", .str "")]
        :: parse_items_loop sels rest

/-- The page-level query surface of one `_parse_*` call: the result of
`page.query_selector_all(selectors["item"])` and of the fallback
`page.query_selector_all("div[class*='card'], li, tr")`, each either
raising or returning a list of item elements. -/
structure PageM where
  primaryItems : Except Unit (List Dom)
  fallbackItems : Except Unit (List Dom)

/-- Item-boundary resolution shared verbatim by all five `_parse_*`
methods: query the primary item selector; `if not items:` query the
structural fallback. -/
def resolve_items (p : PageM) : Except Unit (List Dom) :=
  match p.primaryItems with
  | .error e => .error e
  | .ok its => if its.isEmpty then p.fallbackItems else .ok its

/-- `MHNQuestScraper._parse_monsters`: resolve items then run the item
loop; the outer `try` catches any raised query error and the method
returns the `monsters` accumulated so far, which at those raise points
is still `[]`. -/
def parse_monsters (sels : MonsterSels) (p : PageM) : List RecordDict :=
  match resolve_items p with
  | .error _ => []
  | .ok items => parse_monsters_loop sels items

/-- `MHNQuestScraper._parse_weapons` (same structure). -/
def parse_weapons (sels : WeaponSels) (p : PageM) : List RecordDict :=
  match resolve_items p with
  | .error _ => []
  | .ok items => parse_weapons_loop sels items

/-- `MHNQuestScraper._parse_armor` (same structure). -/
def parse_armor (sels : ArmorSels) (p : PageM) : List RecordDict :=
  match resolve_items p with
  | .error _ => []
  | .ok items => parse_armor_loop sels items

/-- `MHNQuestScraper._parse_skills` (same structure). -/
def parse_skills (sels : SkillSels) (p : PageM) : List RecordDict :=
  match resolve_items p with
  | .error _ => []
  | .ok items => parse_skills_loop sels items

/-- `MHNQuestScraper._parse_items` (same structure). -/
def parse_items (sels : ItemSels) (p : PageM) : List RecordDict :=
  match resolve_items p with
  | .error _ => []
  | .ok items => parse_items_loop sels items

end Claude

namespace Gemini

/-- An `<img>` tag as `parse_monsters` reads it: its class list
(`img.get("class", []) or []`) and its `alt` attribute (`img["alt"]`
raises `KeyError` when absent, modeled by `none`). -/
structure GImg where
  classes : List String
  alt : Option String
deriving DecidableEq, Repr

/-- One BeautifulSoup row element, abstracted to the query results the
gemini parsers read from it: `find(text=True, recursive=False)` (first
direct child text node, whitespace included), the descendant `<img>`
tags, and the `get_text(strip=True)` values of `find("h3")`,
`find("div", class_="name")`, `find("p")`,
`find("div", class_="description")` when those elements exist. -/
structure GRow where
  directText : Option String
  imgs : List GImg
  h3Text : Option String
  nameDivText : Option String
  pText : Option String
  descDivText : Option String
deriving DecidableEq, Repr

/-- One parsed page, abstracted to the soup query results the parsers
use: `soup.select(item_selector)` for the monsters and skills sections,
and the generic fallback
`soup.find_all("div", class_=lambda x: x and "card" in x)`. -/
structure GSoup where
  monsterItems : List GRow
  cardDivs : List GRow
  skillItems : List GRow
deriving DecidableEq, Repr

/-- The weakness list comprehension of `MHNScraper.parse_monsters`:
`[img["alt"] for img in row.find_all("img") if "weak" in (img.get("class", []) or [])]`.
A weak-classed `<img>` without an `alt` raises `KeyError`
(`Except.error`), which the per-row handler turns into skipping the
whole row. -/
def weak_alts : List GImg → Except Unit (List String)
  | [] => .ok []
  | img :: rest =>
    if "weak" ∈ img.classes then
      match img.alt with
      | none => .error ()
      | some a =>
        match weak_alts rest with
        | .error e => .error e
        | .ok l => .ok (a :: l)
    else weak_alts rest

/-- The per-row body of `MHNScraper.parse_monsters`:
`name_en = row.find(text=True, recursive=False) or "Unknown Monster"`
(Python `or`: an absent or empty text node yields the placeholder, a
whitespace-only text node does not), then the fixed-shape entry dict
with `str(name_en).strip()`.  `none` is the row whose exception was
caught and logged (row skipped). -/
def monster_entry (row : GRow) : Option RecordDict :=
  let name_en : String :=
    match row.directText with
    | none => "Unknown Monster"
    | some t => if t = "" then "Unknown Monster" else t
  match weak_alts row.imgs with
  | .error _ => none
  | .ok ws =>
    some [("type", .str "monster"), ("en", .str (pyStrip name_en)),
          ("jp", .str "TODO"), ("weakness", .vals ws),
          ("materials", .vals []), ("notes", .str "")]

/-- `MHNScraper.parse_monsters`: select the configured item selector,
fall back to generic card `<div>`s when it matches nothing, then emit
one entry per row (rows whose processing raises are skipped). -/
def parse_monsters (soup : GSoup) : List RecordDict :=
  let rows := if soup.monsterItems.isEmpty then soup.cardDivs else soup.monsterItems
  rows.filterMap monster_entry

/-- The per-row body of `MHNScraper.parse_skills`:
`name = row.find("h3") or row.find("div", class_="name")` (a found
element is always truthy), `desc = row.find("p") or
row.find("div", class_="description")`, then the fixed-shape entry with
`"Unknown Skill"` / `""` defaults when the elements are absent. -/
def skill_entry (row : GRow) : RecordDict :=
  let nameText : Option String :=
    match row.h3Text with
    | some t => some t
    | none => row.nameDivText
  let descText : Option String :=
    match row.pText with
    | some t => some t
    | none => row.descDivText
  [("type", .str "skill"),
   ("en", .str (match nameText with | some t => t | none => "Unknown Skill")),
   ("jp", .str ""),
   ("description", .str (match descText with | some t => t | none => "")),
   ("notes", .str "")]

/-- `MHNScraper.parse_skills`: select the configured skills item
selector — with no fallback — and emit one entry per row (nothing in
the row body raises, so the per-row `except: continue` is dead). -/
def parse_skills (soup : GSoup) : List RecordDict :=
  soup.skillItems.map skill_entry

end Gemini

/-! ## Orchestration: per-section outcomes and exit codes -/

/-- The five fixed categories, in the declaration order both variants
iterate them (the claude order; gemini uses monsters, skills, items,
weapons, armor — the totals below are order-independent). -/
inductive SectionKey where
  | monsters | weapons | armor | skills | items
deriving DecidableEq, Repr

def sectionName : SectionKey → String
  | .monsters => "monsters"
  | .weapons => "weapons"
  | .armor => "armor"
  | .skills => "skills"
  | .items => "items"

def section_order : List SectionKey :=
  [.monsters, .weapons, .armor, .skills, .items]

/-- The total record count of a report (`total_entries` in the claude
variant's `main_async`: the sum of the five per-section counts). -/
def report_total (r : SectionKey → Nat × List String) : Nat :=
  (section_order.map (fun s => (r s).1)).sum

namespace Claude

/-- The error string recorded by `scrape_all`'s per-section handler:
`f"Failed to scrape {section_name}: {str(e)}"`. -/
def err_msg (s : SectionKey) (e : String) : String :=
  "Failed to scrape " ++ sectionName s ++ ": " ++ e

/-- What `scrape_all` records for one section given the result of its
`_scrape_section` attempt (which either returns the record list or
raises): on success `count = len(data)` and the error list stays `[]`;
on a caught exception the count stays `0` and the message is appended. -/
def section_outcome {α : Type} (s : SectionKey) (r : Except String (List α)) :
    Nat × List String :=
  match r with
  | .ok data => (data.length, [])
  | .error e => (0, [err_msg s e])

/-- The report built by `scrape_all`'s loop: each section's entry is
determined by that section's own attempt, and every section is
attempted regardless of earlier outcomes. -/
def scrape_report {α : Type} (f : SectionKey → Except String (List α))
    (s : SectionKey) : Nat × List String :=
  section_outcome s (f s)

/-- The tail of `main_async`: `return 0 if total_entries > 0 else 1`,
passed to `sys.exit` by `main`. -/
def exit_code {α : Type} (f : SectionKey → Except String (List α)) : Nat :=
  if 0 < report_total (scrape_report f) then 0 else 1

end Claude

namespace Gemini

/-- The error string recorded by `fetch_and_process`'s handler:
`f"Critical failure in {section_key}: {str(e)}"`. -/
def err_msg (k : String) (e : String) : String :=
  "Critical failure in " ++ k ++ ": " ++ e

/-- What `fetch_and_process` records into `report["sections"]` for one
section: on success, `count = len(items)` and
`"errors": [] if count > 0 else ["No items found - check selectors"]`;
on a caught exception, count `0` and the failure message. -/
def section_outcome {α : Type} (k : String) (r : Except String (List α)) :
    Nat × List String :=
  match r with
  | .ok items =>
    (items.length, if 0 < items.length then [] else ["No items found - check selectors"])
  | .error e => (0, [err_msg k e])

/-- `MHNScraper.main` parses the arguments, calls `scraper.run()` and
returns; no exit status is computed or passed anywhere, so a completed
run exits with the interpreter default `0` whatever the report holds. -/
def exit_code (_r : SectionKey → Nat × List String) : Nat := 0

end Gemini

/-! ## Spec-side characterisation of list extraction (for claim C2) -/

namespace Claude

/-- The text one matched element contributes in `_extract_list`: its
stripped text when the raw text and the stripped text are both truthy,
nothing otherwise. -/
def good_text (d : Dom) (e : Nat) : Option String :=
  match d.textContent e with
  | .ok (some t) => if t = "" then none else if pyStrip t = "" then none else some (pyStrip t)
  | _ => none

/-- The trimmed non-empty texts of all descendants matching one
candidate selector (empty when the query raises). -/
def cand_texts (d : Dom) (sel : String) : List String :=
  match d.queryAll (pyStrip sel) with
  | .error _ => []
  | .ok es => es.filterMap (good_text d)

/-- The result the spec's words prescribe for `extract_list`: the texts
of the first candidate yielding at least one non-empty match, and `[]`
when all candidates are exhausted. -/
def first_nonempty_cand (d : Dom) : List String → List String
  | [] => []
  | sel :: rest =>
    if (cand_texts d sel).isEmpty then first_nonempty_cand d rest else cand_texts d sel

/-- No call made while evaluating candidate `sel` raises: the query
succeeds and reading each matched element's text succeeds. -/
def cand_ok (d : Dom) (sel : String) : Bool :=
  match d.queryAll (pyStrip sel) with
  | .error _ => false
  | .ok es => es.all (fun e => match d.textContent e with | .ok _ => true | .error _ => false)

/-- The items carried by either outcome of the inner collection loop
(the Python `items` list survives the `except`). -/
def listPayload : Except (List String) (List String) → List String
  | .ok l => l
  | .error l => l

end Claude

/-! ## Concrete inputs used by the witnesses and counterexamples -/

/-- Two candidates: the first matches elements `1` (whitespace text)
and `2` (text `" x "`), the second matches element `3`. -/
def c2dom : Dom :=
  { query := fun _ => .ok none,
    queryAll := fun s =>
      if s = "a" then .ok [1, 2] else if s = "b" then .ok [3] else .ok [],
    textContent := fun e =>
      if e = 1 then .ok (some " ") else if e = 2 then .ok (some " x ") else .ok (some "y") }

/-- Querying candidate `"a"` raises; candidate `"b"` alone would match
element `5` with text `"X"`. -/
def c3dom : Dom :=
  { query := fun s =>
      if s = "a" then .error () else if s = "b" then .ok (some 5) else .ok none,
    queryAll := fun _ => .ok [],
    textContent := fun e => if e = 5 then .ok (some "X") else .ok none }

/-- Every `query_selector_all` call raises. -/
def c3dom2 : Dom :=
  { query := fun _ => .ok none,
    queryAll := fun _ => .error (),
    textContent := fun _ => .ok none }

/-- Candidate `"a"` matches elements `1, 2, 3`; reading element `2`'s
text raises after element `1` contributed `"x"`. -/
def c10dom : Dom :=
  { query := fun _ => .ok none,
    queryAll := fun s => if s = "a" then .ok [1, 2, 3] else .ok [],
    textContent := fun e =>
      if e = 1 then .ok (some " x ") else if e = 2 then .error () else .ok (some "y") }

/-- A gemini monster row whose only direct text node is the whitespace
string `" "`: truthy in Python, so the `"Unknown Monster"` default is
not taken, and `str(name_en).strip()` is `""`. -/
def c1row : Gemini.GRow :=
  { directText := some " ", imgs := [], h3Text := none, nameDivText := none,
    pText := none, descDivText := none }

def c1soup : Gemini.GSoup :=
  { monsterItems := [c1row], cardDivs := [], skillItems := [] }

/-- A scope element on which every query finds nothing. -/
def c1dom : Dom :=
  { query := fun _ => .ok none, queryAll := fun _ => .ok [],
    textContent := fun _ => .ok none }

def c1msels : Claude.MonsterSels :=
  { name_en := "n", name_jp := "j", weakness := "w", materials := "m" }

def c1wsels : Claude.WeaponSels :=
  { name_en := "n", name_jp := "j", weapon_class := "c", rarity := "r" }

def c1asels : Claude.ArmorSels :=
  { name_en := "n", name_jp := "j", slot := "s", skills := "k" }

def c1ssels : Claude.SkillSels :=
  { name_en := "n", name_jp := "j", description := "d" }

def c1isels : Claude.ItemSels :=
  { name_en := "n", name_jp := "j", category := "c", description := "d" }

/-- A structural-fallback row (a bare card `<div>`): no `h3`, no name
`<div>`, no text at all. -/
def c6row : Gemini.GRow :=
  { directText := none, imgs := [], h3Text := none, nameDivText := none,
    pText := none, descDivText := none }

/-- A page whose skills item selector matches nothing while a generic
card `<div>` is present. -/
def c6soup : Gemini.GSoup :=
  { monsterItems := [], cardDivs := [c6row], skillItems := [] }

/-- A claude page whose primary item query returns no elements and
whose fallback query returns one element. -/
def c6page : Claude.PageM :=
  { primaryItems := .ok [], fallbackItems := .ok [c1dom] }

/-- A claude page on which both the primary and the fallback item
query return no elements at all. -/
def c4page : Claude.PageM :=
  { primaryItems := .ok [], fallbackItems := .ok [] }

/-- A claude page whose primary item query raises (crashed page):
`_parse_monsters` catches this itself and returns `[]`. -/
def c7page : Claude.PageM :=
  { primaryItems := .error (), fallbackItems := .ok [] }

/-- A run in which the monsters attempt raises and every other section
succeeds with one record. -/
def c7oracle : SectionKey → Except String (List Nat) :=
  fun s => match s with
  | .monsters => .error "nav timeout"
  | _ => .ok [0]

/-- A gemini monster row with direct text `"Rathalos"` and no images. -/
def c8row : Gemini.GRow :=
  { directText := some "Rathalos", imgs := [], h3Text := none, nameDivText := none,
    pText := none, descDivText := none }

def c8soup : Gemini.GSoup :=
  { monsterItems := [c8row], cardDivs := [], skillItems := [] }

/-- An item element whose `"n"` query finds element `0` with text
`" Rathalos "`; every other field query finds nothing. -/
def c9dom : Dom :=
  { query := fun s => if s = "n" then .ok (some 0) else .ok none,
    queryAll := fun _ => .ok [],
    textContent := fun e => if e = 0 then .ok (some " Rathalos ") else .ok none }

def c9page : Claude.PageM :=
  { primaryItems := .ok [c9dom], fallbackItems := .ok [] }

/-- A run in which every section's attempt succeeds with zero records. -/
def c5oracle : SectionKey → Except String (List Nat) := fun _ => .ok []

/-- A run in which monsters yields two records and the rest none. -/
def c5oracle2 : SectionKey → Except String (List Nat) :=
  fun s => match s with
  | .monsters => .ok [0, 1]
  | _ => .ok []

/-- A report in which every section recorded zero records. -/
def c5report : SectionKey → Nat × List String := fun _ => (0, [])

/-- The record the gemini monsters parser emits for `c8row`: fixed
shape, empty `weakness`, `materials` and `notes` values included. -/
def c8rec : RecordDict :=
  [("type", .str "monster"), ("en", .str "Rathalos"), ("jp", .str "TODO"),
   ("weakness", .vals []), ("materials", .vals []), ("notes", .str "")]

/-- The record the claude monsters parser emits for `c9dom` under
`c1msels`: only the non-empty fields survive `to_dict`. -/
def c9rec : RecordDict :=
  [("type", .str "monster"), ("en", .str "Rathalos")]

/-! ## Helper lemmas about stripping -/

theorem notWsHead_dropWhile (l : List Char) :
    notWsHead (l.dropWhile Char.isWhitespace) = true := by
  induction l with
  | nil => rfl
  | cons c cs ih =>
    by_cases h : Char.isWhitespace c
    · simpa [List.dropWhile_cons, h] using ih
    · simp [List.dropWhile_cons, h, notWsHead]

theorem dropWhile_append_singleton (p : Char → Bool) (c : Char) (hc : p c = false)
    (x : List Char) : ∃ z, (x ++ [c]).dropWhile p = z ++ [c] := by
  induction x with
  | nil => exact ⟨[], by simp [List.dropWhile_cons, hc]⟩
  | cons a x ih =>
    by_cases h : p a
    · obtain ⟨z, hz⟩ := ih
      exact ⟨z, by simp [List.dropWhile_cons, h, hz]⟩
    · exact ⟨a :: x, by simp [List.dropWhile_cons, h]⟩

theorem notWsHead_stripChars (l : List Char) : notWsHead (stripChars l) = true := by
  unfold stripChars
  rcases h : l.dropWhile Char.isWhitespace with _ | ⟨c, cs⟩
  · simp [notWsHead]
  · have hc : Char.isWhitespace c = false := by
      have hh := notWsHead_dropWhile l
      rw [h] at hh
      simpa [notWsHead] using hh
    have hrev : (c :: cs).reverse = cs.reverse ++ [c] := by simp
    rw [hrev]
    obtain ⟨z, hz⟩ := dropWhile_append_singleton Char.isWhitespace c hc cs.reverse
    rw [hz]
    simp [notWsHead, hc]

theorem notWsHead_stripChars_reverse (l : List Char) :
    notWsHead (stripChars l).reverse = true := by
  unfold stripChars
  rw [List.reverse_reverse]
  exact notWsHead_dropWhile _

theorem trimmedB_pyStrip (s : String) : trimmedB (pyStrip s) = true := by
  unfold trimmedB pyStrip
  simp [notWsHead_stripChars, notWsHead_stripChars_reverse]

/-! ## Lemmas about the list extractor -/

theorem extract_list_texts_ok (d : Dom) :
    ∀ (es : List Nat) (acc : List String),
      (es.all fun e => match d.textContent e with | .ok _ => true | .error _ => false) = true →
      Claude.extract_list_texts d acc es = .ok (acc ++ es.filterMap (Claude.good_text d)) := by
  intro es
  induction es with
  | nil => intro acc _; simp [Claude.extract_list_texts]
  | cons e rest ih =>
    intro acc h
    rw [List.all_cons, Bool.and_eq_true] at h
    obtain ⟨he, hrest⟩ := h
    rcases ht : d.textContent e with u | t?
    · rw [ht] at he; simp at he
    · rcases t? with _ | t
      · simp [Claude.extract_list_texts, ht, List.filterMap_cons, Claude.good_text, ih _ hrest]
      · by_cases h0 : t = ""
        · simp [Claude.extract_list_texts, ht, h0, List.filterMap_cons, Claude.good_text,
                ih _ hrest]
        · by_cases h1 : pyStrip t = ""
          · simp [Claude.extract_list_texts, ht, h0, h1, List.filterMap_cons, Claude.good_text,
                  ih _ hrest]
          · simp [Claude.extract_list_texts, ht, h0, h1, List.filterMap_cons, Claude.good_text,
                  ih _ hrest]

theorem extract_list_go_first (d : Dom) :
    ∀ cands : List String, cands.all (Claude.cand_ok d) = true →
      Claude.extract_list_go d [] cands = Claude.first_nonempty_cand d cands := by
  intro cands
  induction cands with
  | nil => intro _; rfl
  | cons sel rest ih =>
    intro h
    rw [List.all_cons, Bool.and_eq_true] at h
    obtain ⟨hsel, hrest⟩ := h
    unfold Claude.cand_ok at hsel
    rcases hq : d.queryAll (pyStrip sel) with u | es
    · rw [hq] at hsel; simp at hsel
    · rw [hq] at hsel
      have hinner := extract_list_texts_ok d es [] hsel
      have hct : Claude.cand_texts d sel = es.filterMap (Claude.good_text d) := by
        unfold Claude.cand_texts; rw [hq]
      simp only [Claude.extract_list_go, Claude.first_nonempty_cand, hq, hinner,
        List.nil_append, hct]
      rcases hemp : es.filterMap (Claude.good_text d) with _ | ⟨x, xs⟩
      · simpa [hemp] using ih hrest
      · simp

theorem extract_list_texts_inv (d : Dom) :
    ∀ (es : List Nat) (acc : List String),
      (∀ s ∈ acc, s ≠ "" ∧ trimmedB s = true) →
      ∀ s ∈ Claude.listPayload (Claude.extract_list_texts d acc es),
        s ≠ "" ∧ trimmedB s = true := by
  intro es
  induction es with
  | nil => intro acc hacc; simpa [Claude.extract_list_texts, Claude.listPayload] using hacc
  | cons e rest ih =>
    intro acc hacc
    rcases ht : d.textContent e with u | t?
    · simp only [Claude.extract_list_texts, ht]
      simpa [Claude.listPayload] using hacc
    · rcases t? with _ | t
      · simp only [Claude.extract_list_texts, ht]
        exact ih acc hacc
      · by_cases h0 : t = ""
        · simp only [Claude.extract_list_texts, ht, if_pos h0]
          exact ih acc hacc
        · by_cases h1 : pyStrip t = ""
          · simp only [Claude.extract_list_texts, ht, if_neg h0, if_pos h1]
            exact ih acc hacc
          · simp only [Claude.extract_list_texts, ht, if_neg h0, if_neg h1]
            apply ih
            intro s hs
            rcases List.mem_append.mp hs with hmem | hmem
            · exact hacc s hmem
            · have hsx : s = pyStrip t := List.mem_singleton.mp hmem
              subst hsx
              exact ⟨h1, trimmedB_pyStrip t⟩

theorem extract_list_go_inv (d : Dom) :
    ∀ (cands : List String) (acc : List String),
      (∀ s ∈ acc, s ≠ "" ∧ trimmedB s = true) →
      ∀ s ∈ Claude.extract_list_go d acc cands, s ≠ "" ∧ trimmedB s = true := by
  intro cands
  induction cands with
  | nil => intro acc hacc; simpa [Claude.extract_list_go] using hacc
  | cons sel rest ih =>
    intro acc hacc
    rcases hq : d.queryAll (pyStrip sel) with u | es
    · simp only [Claude.extract_list_go, hq]
      exact hacc
    · have hpay := extract_list_texts_inv d es acc hacc
      rcases hres : Claude.extract_list_texts d acc es with l | acc2
      · rw [hres] at hpay
        simp only [Claude.extract_list_go, hq, hres]
        simpa [Claude.listPayload] using hpay
      · rw [hres] at hpay
        have hacc2 : ∀ s ∈ acc2, s ≠ "" ∧ trimmedB s = true := by
          simpa [Claude.listPayload] using hpay
        simp only [Claude.extract_list_go, hq, hres]
        by_cases hemp : acc2 = []
        · simp only [if_pos hemp]
          exact ih acc2 hacc2
        · simp only [if_neg hemp]
          exact hacc2

/-! ## Claim C2 -/

/-- C2: `_extract_list` evaluates the comma-separated candidates in
order and returns the trimmed non-empty texts of all descendants
matching the first candidate yielding at least one such text, without
consulting any later candidate; if every candidate yields no non-empty
match it returns the empty sequence.  Proved for any scope on which
the involved queries and text reads do not raise (the raising case is
claim C3). -/
theorem c2_extract_list_first_match (d : Dom) (selector : String)
    (h : (splitComma selector).all (Claude.cand_ok d) = true) :
    Claude.extract_list d selector
      = Claude.first_nonempty_cand d (splitComma selector) :=
  extract_list_go_first d _ h

theorem c2_extract_list_first_match_witness :
    (splitComma "a,b").all (Claude.cand_ok c2dom) = true ∧
    Claude.extract_list c2dom "a,b"
      = Claude.first_nonempty_cand c2dom (splitComma "a,b") ∧
    Claude.extract_list c2dom "a,b" = ["x"] :=
  ⟨by decide, c2_extract_list_first_match c2dom "a,b" (by decide), by decide⟩

/-! ## Claim C3 -/

/-- C3 counterexample: on `c3dom`, querying the first candidate `"a"`
raises, and the second candidate `"b"` alone yields `"X"` — yet
`_extract_text` on `"a,b"` returns `""`: the caught error does not make
evaluation proceed to the remaining candidate, contradicting the claim
that an error is treated as "no match for this candidate" only. -/
theorem c3_counterexample :
    Claude.extract_text c3dom "a,b" = "" ∧ Claude.extract_text c3dom "b" = "X" :=
  ⟨by decide, by decide⟩

/-- C3 amended: an error raised while querying or reading text is
caught inside the extractor — it never propagates, so sibling fields
are unaffected — but the extractor then returns immediately (`""` for
`_extract_text`, the items accumulated so far for `_extract_list`)
without consulting the remaining candidates. -/
theorem c3_amended_error_caught_aborts_candidates :
    (∀ (d : Dom) (sel : String) (rest : List String),
       d.query (pyStrip sel) = .error () →
       Claude.extract_text_go d (sel :: rest) = "") ∧
    (∀ (d : Dom) (sel : String) (rest : List String) (e : Nat),
       d.query (pyStrip sel) = .ok (some e) → d.textContent e = .error () →
       Claude.extract_text_go d (sel :: rest) = "") ∧
    (∀ (d : Dom) (acc : List String) (sel : String) (rest : List String),
       d.queryAll (pyStrip sel) = .error () →
       Claude.extract_list_go d acc (sel :: rest) = acc) := by
  refine ⟨?_, ?_, ?_⟩
  · intro d sel rest h
    simp [Claude.extract_text_go, h]
  · intro d sel rest e hq ht
    simp [Claude.extract_text_go, hq, ht]
  · intro d acc sel rest h
    simp [Claude.extract_list_go, h]

theorem c3_amended_error_caught_aborts_candidates_witness :
    Claude.extract_text_go c3dom ["a", "b"] = "" ∧
    Claude.extract_list_go c3dom2 ["p"] ["a"] = ["p"] :=
  ⟨c3_amended_error_caught_aborts_candidates.1 c3dom "a" ["b"] (by rfl),
   c3_amended_error_caught_aborts_candidates.2.2 c3dom2 ["p"] "a" [] (by rfl)⟩

/-! ## Claim C10 -/

/-- C10: every element of the sequence returned by `_extract_list` is a
non-empty string with no leading or trailing whitespace, for every
scope behaviour including ones that raise; and when reading an
element's text raises partway through a candidate's collection, the
partial results accumulated so far are what is returned. -/
theorem c10_extract_list_elements_trimmed :
    (∀ (d : Dom) (selector : String), ∀ s ∈ Claude.extract_list d selector,
       s ≠ "" ∧ trimmedB s = true) ∧
    (∀ (d : Dom) (sel : String) (rest acc : List String) (es : List Nat) (l : List String),
       d.queryAll (pyStrip sel) = .ok es →
       Claude.extract_list_texts d acc es = .error l →
       Claude.extract_list_go d acc (sel :: rest) = l) := by
  constructor
  · intro d selector s hs
    exact extract_list_go_inv d _ [] (by simp) s hs
  · intro d sel rest acc es l hq hres
    simp [Claude.extract_list_go, hq, hres]

theorem c10_extract_list_elements_trimmed_witness :
    (("x" : String) ≠ "" ∧ trimmedB "x" = true) ∧
    Claude.extract_list_go c10dom [] ["a"] = ["x"] :=
  ⟨c10_extract_list_elements_trimmed.1 c10dom "a" "x" (by decide),
   c10_extract_list_elements_trimmed.2 c10dom "a" [] [] [1, 2, 3] ["x"]
     (by rfl) (by rfl)⟩

/-! ## Lemmas about the claude parsers -/

theorem mem_to_dict {fields : RecordDict} {kv : String × FieldVal}
    (h1 : kv ∈ fields) (h2 : isEmptyVal kv.2 = false) : kv ∈ Claude.to_dict fields :=
  List.mem_filter.mpr ⟨h1, by simp [h2]⟩

theorem parse_monsters_loop_mem (sels : Claude.MonsterSels) :
    ∀ (l : List Dom) (r : RecordDict), r ∈ Claude.parse_monsters_loop sels l →
      ("type", FieldVal.str "monster") ∈ r ∧
        ∃ s, ("en", FieldVal.str s) ∈ r ∧ s ≠ "" := by
  intro l
  induction l with
  | nil => intro r hr; simp [Claude.parse_monsters_loop] at hr
  | cons d rest ih =>
    intro r hr
    by_cases h : Claude.extract_text d sels.name_en = ""
    · rw [Claude.parse_monsters_loop, if_pos h] at hr
      exact ih r hr
    · rw [Claude.parse_monsters_loop, if_neg h] at hr
      rcases List.mem_cons.mp hr with hr | hr
      · subst hr
        refine ⟨mem_to_dict (by simp) (by simp [isEmptyVal]), ?_⟩
        exact ⟨Claude.extract_text d sels.name_en,
          mem_to_dict (by simp) (by simp [isEmptyVal, h]), h⟩
      · exact ih r hr

theorem parse_weapons_loop_mem (sels : Claude.WeaponSels) :
    ∀ (l : List Dom) (r : RecordDict), r ∈ Claude.parse_weapons_loop sels l →
      ("type", FieldVal.str "weapon") ∈ r ∧
        ∃ s, ("en", FieldVal.str s) ∈ r ∧ s ≠ "" := by
  intro l
  induction l with
  | nil => intro r hr; simp [Claude.parse_weapons_loop] at hr
  | cons d rest ih =>
    intro r hr
    by_cases h : Claude.extract_text d sels.name_en = ""
    · rw [Claude.parse_weapons_loop, if_pos h] at hr
      exact ih r hr
    · rw [Claude.parse_weapons_loop, if_neg h] at hr
      rcases List.mem_cons.mp hr with hr | hr
      · subst hr
        refine ⟨mem_to_dict (by simp) (by simp [isEmptyVal]), ?_⟩
        exact ⟨Claude.extract_text d sels.name_en,
          mem_to_dict (by simp) (by simp [isEmptyVal, h]), h⟩
      · exact ih r hr

theorem parse_armor_loop_mem (sels : Claude.ArmorSels) :
    ∀ (l : List Dom) (r : RecordDict), r ∈ Claude.parse_armor_loop sels l →
      ("type", FieldVal.str "armor") ∈ r ∧
        ∃ s, ("en", FieldVal.str s) ∈ r ∧ s ≠ "" := by
  intro l
  induction l with
  | nil => intro r hr; simp [Claude.parse_armor_loop] at hr
  | cons d rest ih =>
    intro r hr
    by_cases h : Claude.extract_text d sels.name_en = ""
    · rw [Claude.parse_armor_loop, if_pos h] at hr
      exact ih r hr
    · rw [Claude.parse_armor_loop, if_neg h] at hr
      rcases List.mem_cons.mp hr with hr | hr
      · subst hr
        refine ⟨mem_to_dict (by simp) (by simp [isEmptyVal]), ?_⟩
        exact ⟨Claude.extract_text d sels.name_en,
          mem_to_dict (by simp) (by simp [isEmptyVal, h]), h⟩
      · exact ih r hr

theorem parse_skills_loop_mem (sels : Claude.SkillSels) :
    ∀ (l : List Dom) (r : RecordDict), r ∈ Claude.parse_skills_loop sels l →
      ("type", FieldVal.str "skill") ∈ r ∧
        ∃ s, ("en", FieldVal.str s) ∈ r ∧ s ≠ "" := by
  intro l
  induction l with
  | nil => intro r hr; simp [Claude.parse_skills_loop] at hr
  | cons d rest ih =>
    intro r hr
    by_cases h : Claude.extract_text d sels.name_en = ""
    · rw [Claude.parse_skills_loop, if_pos h] at hr
      exact ih r hr
    · rw [Claude.parse_skills_loop, if_neg h] at hr
      rcases List.mem_cons.mp hr with hr | hr
      · subst hr
        refine ⟨mem_to_dict (by simp) (by simp [isEmptyVal]), ?_⟩
        exact ⟨Claude.extract_text d sels.name_en,
          mem_to_dict (by simp) (by simp [isEmptyVal, h]), h⟩
      · exact ih r hr

theorem parse_items_loop_mem (sels : Claude.ItemSels) :
    ∀ (l : List Dom) (r : RecordDict), r ∈ Claude.parse_items_loop sels l →
      ("type", FieldVal.str "item") ∈ r ∧
        ∃ s, ("en", FieldVal.str s) ∈ r ∧ s ≠ "" := by
  intro l
  induction l with
  | nil => intro r hr; simp [Claude.parse_items_loop] at hr
  | cons d rest ih =>
    intro r hr
    by_cases h : Claude.extract_text d sels.name_en = ""
    · rw [Claude.parse_items_loop, if_pos h] at hr
      exact ih r hr
    · rw [Claude.parse_items_loop, if_neg h] at hr
      rcases List.mem_cons.mp hr with hr | hr
      · subst hr
        refine ⟨mem_to_dict (by simp) (by simp [isEmptyVal]), ?_⟩
        exact ⟨Claude.extract_text d sels.name_en,
          mem_to_dict (by simp) (by simp [isEmptyVal, h]), h⟩
      · exact ih r hr

/-! ## Claim C1 -/

/-- C1 counterexample: for the gemini monsters parser, a candidate row
whose only direct text node is the whitespace string `" "` has an
extracted display name `str(name_en).strip() = ""`, yet the record is
still emitted — with `"en"` bound to the empty string — so an item with
an empty mandatory display name is not excluded from the output. -/
theorem c1_counterexample :
    Gemini.parse_monsters c1soup
      = [[("type", FieldVal.str "monster"), ("en", FieldVal.str ""),
          ("jp", FieldVal.str "TODO"), ("weakness", FieldVal.vals []),
          ("materials", FieldVal.vals []), ("notes", FieldVal.str "")]] := by
  decide

/-- C1 amended: in the claude variant the claim holds for all five
category parsers — an item whose extracted `en` is empty contributes
nothing to the output, and the output length is at most the number of
candidate item elements.  (The gemini monsters parser instead
substitutes `"Unknown Monster"` for a falsy name and emits the record
even when the stripped name is empty; see the counterexample.) -/
theorem c1_claude_excludes_empty_en :
    (∀ (sels : Claude.MonsterSels) (d : Dom) (rest : List Dom),
       Claude.extract_text d sels.name_en = "" →
       Claude.parse_monsters_loop sels (d :: rest) = Claude.parse_monsters_loop sels rest) ∧
    (∀ (sels : Claude.MonsterSels) (l : List Dom),
       (Claude.parse_monsters_loop sels l).length ≤ l.length) ∧
    (∀ (sels : Claude.WeaponSels) (d : Dom) (rest : List Dom),
       Claude.extract_text d sels.name_en = "" →
       Claude.parse_weapons_loop sels (d :: rest) = Claude.parse_weapons_loop sels rest) ∧
    (∀ (sels : Claude.WeaponSels) (l : List Dom),
       (Claude.parse_weapons_loop sels l).length ≤ l.length) ∧
    (∀ (sels : Claude.ArmorSels) (d : Dom) (rest : List Dom),
       Claude.extract_text d sels.name_en = "" →
       Claude.parse_armor_loop sels (d :: rest) = Claude.parse_armor_loop sels rest) ∧
    (∀ (sels : Claude.ArmorSels) (l : List Dom),
       (Claude.parse_armor_loop sels l).length ≤ l.length) ∧
    (∀ (sels : Claude.SkillSels) (d : Dom) (rest : List Dom),
       Claude.extract_text d sels.name_en = "" →
       Claude.parse_skills_loop sels (d :: rest) = Claude.parse_skills_loop sels rest) ∧
    (∀ (sels : Claude.SkillSels) (l : List Dom),
       (Claude.parse_skills_loop sels l).length ≤ l.length) ∧
    (∀ (sels : Claude.ItemSels) (d : Dom) (rest : List Dom),
       Claude.extract_text d sels.name_en = "" →
       Claude.parse_items_loop sels (d :: rest) = Claude.parse_items_loop sels rest) ∧
    (∀ (sels : Claude.ItemSels) (l : List Dom),
       (Claude.parse_items_loop sels l).length ≤ l.length) := by
  refine ⟨?_, ?_, ?_, ?_, ?_, ?_, ?_, ?_, ?_, ?_⟩
  · intro sels d rest h; rw [Claude.parse_monsters_loop, if_pos h]
  · intro sels l
    induction l with
    | nil => simp [Claude.parse_monsters_loop]
    | cons d rest ih =>
      by_cases h : Claude.extract_text d sels.name_en = ""
      · rw [Claude.parse_monsters_loop, if_pos h]
        exact le_trans ih (Nat.le_succ _)
      · rw [Claude.parse_monsters_loop, if_neg h]
        simpa using Nat.succ_le_succ ih
  · intro sels d rest h; rw [Claude.parse_weapons_loop, if_pos h]
  · intro sels l
    induction l with
    | nil => simp [Claude.parse_weapons_loop]
    | cons d rest ih =>
      by_cases h : Claude.extract_text d sels.name_en = ""
      · rw [Claude.parse_weapons_loop, if_pos h]
        exact le_trans ih (Nat.le_succ _)
      · rw [Claude.parse_weapons_loop, if_neg h]
        simpa using Nat.succ_le_succ ih
  · intro sels d rest h; rw [Claude.parse_armor_loop, if_pos h]
  · intro sels l
    induction l with
    | nil => simp [Claude.parse_armor_loop]
    | cons d rest ih =>
      by_cases h : Claude.extract_text d sels.name_en = ""
      · rw [Claude.parse_armor_loop, if_pos h]
        exact le_trans ih (Nat.le_succ _)
      · rw [Claude.parse_armor_loop, if_neg h]
        simpa using Nat.succ_le_succ ih
  · intro sels d rest h; rw [Claude.parse_skills_loop, if_pos h]
  · intro sels l
    induction l with
    | nil => simp [Claude.parse_skills_loop]
    | cons d rest ih =>
      by_cases h : Claude.extract_text d sels.name_en = ""
      · rw [Claude.parse_skills_loop, if_pos h]
        exact le_trans ih (Nat.le_succ _)
      · rw [Claude.parse_skills_loop, if_neg h]
        simpa using Nat.succ_le_succ ih
  · intro sels d rest h; rw [Claude.parse_items_loop, if_pos h]
  · intro sels l
    induction l with
    | nil => simp [Claude.parse_items_loop]
    | cons d rest ih =>
      by_cases h : Claude.extract_text d sels.name_en = ""
      · rw [Claude.parse_items_loop, if_pos h]
        exact le_trans ih (Nat.le_succ _)
      · rw [Claude.parse_items_loop, if_neg h]
        simpa using Nat.succ_le_succ ih

theorem c1_claude_excludes_empty_en_witness :
    Claude.parse_monsters_loop c1msels [c1dom] = Claude.parse_monsters_loop c1msels [] ∧
    Claude.parse_weapons_loop c1wsels [c1dom] = Claude.parse_weapons_loop c1wsels [] ∧
    Claude.parse_armor_loop c1asels [c1dom] = Claude.parse_armor_loop c1asels [] ∧
    Claude.parse_skills_loop c1ssels [c1dom] = Claude.parse_skills_loop c1ssels [] ∧
    Claude.parse_items_loop c1isels [c1dom] = Claude.parse_items_loop c1isels [] :=
  ⟨c1_claude_excludes_empty_en.1 c1msels c1dom [] (by decide),
   c1_claude_excludes_empty_en.2.2.1 c1wsels c1dom [] (by decide),
   c1_claude_excludes_empty_en.2.2.2.2.1 c1asels c1dom [] (by decide),
   c1_claude_excludes_empty_en.2.2.2.2.2.2.1 c1ssels c1dom [] (by decide),
   c1_claude_excludes_empty_en.2.2.2.2.2.2.2.2.1 c1isels c1dom [] (by decide)⟩

/-! ## Claim C6 -/

/-- C6 counterexample: the gemini skills parser concludes zero items
directly from an empty primary selection.  On `c6soup` the primary
skills selector matches nothing while a generic card `<div>` is present
— an element the structural fallback (as used by the monsters parser)
would return, and which the skills row body would turn into a record —
yet `parse_skills` returns `[]`: the fallback is never attempted. -/
theorem c6_counterexample :
    Gemini.parse_skills c6soup = [] ∧ c6soup.skillItems = [] ∧
    c6soup.cardDivs.map Gemini.skill_entry
      = [[("type", FieldVal.str "skill"), ("en", FieldVal.str "Unknown Skill"),
          ("jp", FieldVal.str ""), ("description", FieldVal.str ""),
          ("notes", FieldVal.str "")]] :=
  ⟨rfl, rfl, by decide⟩

/-- C6 amended: all five claude parsers (through their shared
item-boundary resolution) and the gemini monsters parser attempt the
generic structural fallback when the primary item selector yields zero
elements; the gemini skills parser does not (and the gemini weapons,
armor and items parsers are static placeholders that consult no
selectors at all). -/
theorem c6_fallback_attempted :
    (∀ p : Claude.PageM, p.primaryItems = .ok [] →
       Claude.resolve_items p = p.fallbackItems) ∧
    (∀ (sels : Claude.MonsterSels) (p : Claude.PageM) (l : List Dom),
       p.primaryItems = .ok [] → p.fallbackItems = .ok l →
       Claude.parse_monsters sels p = Claude.parse_monsters_loop sels l) ∧
    (∀ (sels : Claude.WeaponSels) (p : Claude.PageM) (l : List Dom),
       p.primaryItems = .ok [] → p.fallbackItems = .ok l →
       Claude.parse_weapons sels p = Claude.parse_weapons_loop sels l) ∧
    (∀ (sels : Claude.ArmorSels) (p : Claude.PageM) (l : List Dom),
       p.primaryItems = .ok [] → p.fallbackItems = .ok l →
       Claude.parse_armor sels p = Claude.parse_armor_loop sels l) ∧
    (∀ (sels : Claude.SkillSels) (p : Claude.PageM) (l : List Dom),
       p.primaryItems = .ok [] → p.fallbackItems = .ok l →
       Claude.parse_skills sels p = Claude.parse_skills_loop sels l) ∧
    (∀ (sels : Claude.ItemSels) (p : Claude.PageM) (l : List Dom),
       p.primaryItems = .ok [] → p.fallbackItems = .ok l →
       Claude.parse_items sels p = Claude.parse_items_loop sels l) ∧
    (∀ soup : Gemini.GSoup, soup.monsterItems = [] →
       Gemini.parse_monsters soup = soup.cardDivs.filterMap Gemini.monster_entry) := by
  refine ⟨?_, ?_, ?_, ?_, ?_, ?_, ?_⟩
  · intro p h; simp [Claude.resolve_items, h]
  · intro sels p l h1 h2; simp [Claude.parse_monsters, Claude.resolve_items, h1, h2]
  · intro sels p l h1 h2; simp [Claude.parse_weapons, Claude.resolve_items, h1, h2]
  · intro sels p l h1 h2; simp [Claude.parse_armor, Claude.resolve_items, h1, h2]
  · intro sels p l h1 h2; simp [Claude.parse_skills, Claude.resolve_items, h1, h2]
  · intro sels p l h1 h2; simp [Claude.parse_items, Claude.resolve_items, h1, h2]
  · intro soup h; simp [Gemini.parse_monsters, h]

theorem c6_fallback_attempted_witness :
    Claude.resolve_items c6page = c6page.fallbackItems ∧
    Claude.parse_monsters c1msels c6page = Claude.parse_monsters_loop c1msels [c1dom] ∧
    Gemini.parse_monsters c6soup = c6soup.cardDivs.filterMap Gemini.monster_entry :=
  ⟨c6_fallback_attempted.1 c6page (by rfl),
   c6_fallback_attempted.2.1 c1msels c6page [c1dom] (by rfl) (by rfl),
   c6_fallback_attempted.2.2.2.2.2.2 c6soup (by rfl)⟩

/-! ## Claim C8 -/

/-- C8 counterexample: the gemini monsters parser emits fixed-shape
dictionaries.  The record for a row whose direct text is `"Rathalos"`
and which has no images contains `"weakness": []`, `"materials": []`
and `"notes": ""` — empty values present in the serialized record — so
the sparse-representation claim fails for records produced by the
gemini pipeline. -/
theorem c8_counterexample :
    Gemini.parse_monsters c8soup = [c8rec] ∧
    ("materials", FieldVal.vals []) ∈ c8rec ∧ ("notes", FieldVal.str "") ∈ c8rec :=
  ⟨by decide, by decide, by decide⟩

/-- C8 amended: records built through `GameDataEntry.to_dict` (the
claude variant) satisfy the sparse representation exactly — a
key/value pair appears in the serialized record if and only if it is a
field of the entry with a non-empty value, and re-serializing a
serialized record is the identity (so deserialization recovers exactly
the non-empty fields).  The gemini monster records are fixed-shape
instead: they always carry their `materials` and `notes` keys, even
when the values are empty (see the counterexample). -/
theorem c8_sparse_serialization :
    (∀ (fields : RecordDict) (kv : String × FieldVal),
       kv ∈ Claude.to_dict fields ↔ kv ∈ fields ∧ isEmptyVal kv.2 = false) ∧
    (∀ fields : RecordDict, Claude.to_dict (Claude.to_dict fields) = Claude.to_dict fields) ∧
    (∀ (row : Gemini.GRow) (entry : RecordDict),
       Gemini.monster_entry row = some entry →
       ("materials", FieldVal.vals []) ∈ entry ∧ ("notes", FieldVal.str "") ∈ entry) := by
  refine ⟨?_, ?_, ?_⟩
  · intro fields kv
    simp [Claude.to_dict, List.mem_filter]
  · intro fields
    simp [Claude.to_dict, List.filter_filter]
  · intro row entry h
    simp only [Gemini.monster_entry] at h
    rcases hw : Gemini.weak_alts row.imgs with u | ws
    · rw [hw] at h; exact absurd h (by simp)
    · rw [hw] at h
      have he := Option.some.inj h
      subst he
      exact ⟨by simp, by simp⟩

theorem c8_sparse_serialization_witness :
    ("materials", FieldVal.vals []) ∈ c8rec ∧ ("notes", FieldVal.str "") ∈ c8rec :=
  c8_sparse_serialization.2.2 c8row c8rec (by decide)

/-! ## Claim C9 -/

/-- C9: every record dictionary emitted by the five claude category
parsers contains a `"type"` key bound to the non-empty category
discriminator and an `"en"` key bound to a non-empty string: the
parsers only materialize a record after establishing a non-empty `en`,
and `to_dict` cannot drop either field since both values are
non-empty. -/
theorem c9_records_have_type_and_en :
    (∀ (sels : Claude.MonsterSels) (p : Claude.PageM) (r : RecordDict),
       r ∈ Claude.parse_monsters sels p →
       ("type", FieldVal.str "monster") ∈ r ∧ ∃ s, ("en", FieldVal.str s) ∈ r ∧ s ≠ "") ∧
    (∀ (sels : Claude.WeaponSels) (p : Claude.PageM) (r : RecordDict),
       r ∈ Claude.parse_weapons sels p →
       ("type", FieldVal.str "weapon") ∈ r ∧ ∃ s, ("en", FieldVal.str s) ∈ r ∧ s ≠ "") ∧
    (∀ (sels : Claude.ArmorSels) (p : Claude.PageM) (r : RecordDict),
       r ∈ Claude.parse_armor sels p →
       ("type", FieldVal.str "armor") ∈ r ∧ ∃ s, ("en", FieldVal.str s) ∈ r ∧ s ≠ "") ∧
    (∀ (sels : Claude.SkillSels) (p : Claude.PageM) (r : RecordDict),
       r ∈ Claude.parse_skills sels p →
       ("type", FieldVal.str "skill") ∈ r ∧ ∃ s, ("en", FieldVal.str s) ∈ r ∧ s ≠ "") ∧
    (∀ (sels : Claude.ItemSels) (p : Claude.PageM) (r : RecordDict),
       r ∈ Claude.parse_items sels p →
       ("type", FieldVal.str "item") ∈ r ∧ ∃ s, ("en", FieldVal.str s) ∈ r ∧ s ≠ "") := by
  refine ⟨?_, ?_, ?_, ?_, ?_⟩
  · intro sels p r hr
    simp only [Claude.parse_monsters] at hr
    rcases hres : Claude.resolve_items p with u | items
    · rw [hres] at hr; simp at hr
    · rw [hres] at hr; exact parse_monsters_loop_mem sels items r hr
  · intro sels p r hr
    simp only [Claude.parse_weapons] at hr
    rcases hres : Claude.resolve_items p with u | items
    · rw [hres] at hr; simp at hr
    · rw [hres] at hr; exact parse_weapons_loop_mem sels items r hr
  · intro sels p r hr
    simp only [Claude.parse_armor] at hr
    rcases hres : Claude.resolve_items p with u | items
    · rw [hres] at hr; simp at hr
    · rw [hres] at hr; exact parse_armor_loop_mem sels items r hr
  · intro sels p r hr
    simp only [Claude.parse_skills] at hr
    rcases hres : Claude.resolve_items p with u | items
    · rw [hres] at hr; simp at hr
    · rw [hres] at hr; exact parse_skills_loop_mem sels items r hr
  · intro sels p r hr
    simp only [Claude.parse_items] at hr
    rcases hres : Claude.resolve_items p with u | items
    · rw [hres] at hr; simp at hr
    · rw [hres] at hr; exact parse_items_loop_mem sels items r hr

theorem c9_records_have_type_and_en_witness :
    ("type", FieldVal.str "monster") ∈ c9rec ∧
    (∃ s, ("en", FieldVal.str s) ∈ c9rec ∧ s ≠ "") :=
  c9_records_have_type_and_en.1 c1msels c9page c9rec (by decide)

/-! ## Claim C4 -/

/-- C4 counterexample: in the gemini variant a section whose parsing
completes without exception but yields zero records gets
`["No items found - check selectors"]` recorded as its outcome's error
list — not an empty error list as the claim states. -/
theorem c4_counterexample :
    Gemini.section_outcome "skills" (Except.ok ([] : List Nat))
      = (0, ["No items found - check selectors"]) := rfl

/-- C4 amended: in the claude variant the claim holds: a category whose
item resolution finds zero elements parses to `[]`, and a section whose
attempt returns an empty record list is recorded with count `0` and an
empty error list (`_parse_monsters` only logs a warning); `scrape_all`
derives every section's outcome from that section's own attempt, so
processing continues with the next category (see C7).  The gemini
variant instead records the string `"No items found - check selectors"`
in the outcome's error list. -/
theorem c4_empty_category_outcome :
    (∀ {α : Type} (s : SectionKey),
       Claude.section_outcome s (Except.ok ([] : List α)) = (0, [])) ∧
    (∀ (sels : Claude.MonsterSels) (p : Claude.PageM),
       Claude.resolve_items p = .ok [] → Claude.parse_monsters sels p = []) ∧
    (∀ {α : Type} (k : String),
       Gemini.section_outcome k (Except.ok ([] : List α))
         = (0, ["No items found - check selectors"])) := by
  refine ⟨fun s => rfl, ?_, fun k => rfl⟩
  intro sels p h
  simp [Claude.parse_monsters, h, Claude.parse_monsters_loop]

theorem c4_empty_category_outcome_witness :
    Claude.parse_monsters c1msels c4page = [] ∧
    Claude.section_outcome SectionKey.monsters (Except.ok ([] : List Nat)) = (0, []) :=
  ⟨c4_empty_category_outcome.2.1 c1msels c4page (by rfl),
   c4_empty_category_outcome.1 SectionKey.monsters⟩

/-! ## Claim C5 -/

/-- C5 counterexample: the gemini variant's `main` never computes or
passes an exit status, so a completed run exits `0` even when the
total extracted record count is `0` — the claim demands exit code `1`
there. -/
theorem c5_counterexample :
    report_total c5report = 0 ∧ Gemini.exit_code c5report = 0 := ⟨rfl, rfl⟩

/-- C5 amended: the claude variant satisfies the contract — exit code
`0` exactly when the total extracted record count over the five
categories is positive, `1` when it is zero (including the
all-categories-failed case, where every outcome count is `0`).  The
gemini variant's process always exits `0` on a completed run. -/
theorem c5_exit_code_contract :
    (∀ {α : Type} (f : SectionKey → Except String (List α)),
       0 < report_total (Claude.scrape_report f) → Claude.exit_code f = 0) ∧
    (∀ {α : Type} (f : SectionKey → Except String (List α)),
       report_total (Claude.scrape_report f) = 0 → Claude.exit_code f = 1) ∧
    (∀ r : SectionKey → Nat × List String, Gemini.exit_code r = 0) := by
  refine ⟨?_, ?_, fun r => rfl⟩
  · intro α f h
    simp [Claude.exit_code, h]
  · intro α f h
    simp [Claude.exit_code, h]

theorem c5_exit_code_contract_witness :
    Claude.exit_code c5oracle2 = 0 ∧ Claude.exit_code c5oracle = 1 ∧
    Gemini.exit_code c5report = 0 :=
  ⟨c5_exit_code_contract.1 c5oracle2 (by decide),
   c5_exit_code_contract.2.1 c5oracle (by decide),
   c5_exit_code_contract.2.2 c5report⟩

/-! ## Claim C7 -/

/-- C7 counterexample: in the claude variant an exception raised during
extraction — here the item query raising on a crashed page — is caught
inside `_parse_monsters`, which returns `[]`; `scrape_all` then records
that category with count `0` and an EMPTY error list, so the causing
error is not recorded in the category's outcome as the claim states. -/
theorem c7_counterexample :
    Claude.parse_monsters c1msels c7page = [] ∧
    Claude.section_outcome SectionKey.monsters
        (Except.ok (Claude.parse_monsters c1msels c7page)) = (0, []) :=
  ⟨rfl, rfl⟩

/-- C7 amended: an exception raised by a category attempt that escapes
`_scrape_section` (navigation timeout, navigation error, or anything
else reaching `scrape_all`'s per-section handler) is recorded as count
`0` together with the causing error message, and every section's
outcome is determined by its own attempt alone, so the remaining
categories are still attempted; the gemini per-section handler records
such failures the same way.  However, an exception raised inside a
claude `_parse_*` body is swallowed by the parser itself, which
returns the records accumulated so far with no recorded error (see the
counterexample). -/
theorem c7_category_failure_isolated :
    (∀ (f : SectionKey → Except String (List Nat)) (s : SectionKey) (e : String),
       f s = .error e → Claude.scrape_report f s = (0, [Claude.err_msg s e])) ∧
    (∀ (f : SectionKey → Except String (List Nat)) (s : SectionKey) (l : List Nat),
       f s = .ok l → Claude.scrape_report f s = (l.length, [])) ∧
    (∀ (sels : Claude.MonsterSels) (p : Claude.PageM),
       p.primaryItems = .error () → Claude.parse_monsters sels p = []) ∧
    (∀ (k e : String),
       Gemini.section_outcome k (Except.error e : Except String (List Nat))
         = (0, [Gemini.err_msg k e])) := by
  refine ⟨?_, ?_, ?_, fun k e => rfl⟩
  · intro f s e h
    simp [Claude.scrape_report, Claude.section_outcome, h]
  · intro f s l h
    simp [Claude.scrape_report, Claude.section_outcome, h]
  · intro sels p h
    simp [Claude.parse_monsters, Claude.resolve_items, h]

theorem c7_category_failure_isolated_witness :
    Claude.scrape_report c7oracle SectionKey.monsters
      = (0, [Claude.err_msg SectionKey.monsters "nav timeout"]) ∧
    Claude.scrape_report c7oracle SectionKey.weapons = (1, []) ∧
    Claude.parse_monsters c1msels c7page = [] ∧
    Gemini.section_outcome "monsters" (Except.error "nav timeout" : Except String (List Nat))
      = (0, [Gemini.err_msg "monsters" "nav timeout"]) :=
  ⟨c7_category_failure_isolated.1 c7oracle SectionKey.monsters "nav timeout" (by rfl),
   c7_category_failure_isolated.2.1 c7oracle SectionKey.weapons [0] (by rfl),
   c7_category_failure_isolated.2.2.1 c1msels c7page (by rfl),
   c7_category_failure_isolated.2.2.2 "monsters" "nav timeout"⟩

end MHN
